import Mathlib

/-!
A verification development for the Code-Learning-Assistant front end.

The source components are shallowly embedded:

* `CodeAnalyzer.tsx`: the pure analysis core `analyzeCode` (the body of the
  1500 ms timer callback) and the automatic-trigger effect `analyzerEffectStep`;
* `DebugHelper.tsx`: the suggestion catalog `commonIssues` and the pure core of
  `analyzeError` (the body of the 1000 ms timer callback);
* `TutorialSystem.tsx`: the tutorial catalog and the navigation handler
  `handleStepNavigation` over the component state;
* `ExerciseGenerator.tsx`: the exercise catalog, `generateRandomExercise`
  (with the random draw made an explicit in-range index parameter) and
  `markCompleted` over the component state.

JavaScript strings are modelled as Lean `String`s; `String.prototype.includes`
as substring containment on the character lists; `split("\n")`, `trim` and
truthiness of strings (non-emptiness) are modelled explicitly below. The
artificial timer delays have no effect on the produced values and are not
modelled.
-/

/-- Character-list version of JavaScript string-method helpers:
does `pat` occur as a prefix of `s`? -/
def hasPrefixCh : List Char → List Char → Bool
  | [], _ => true
  | _ :: _, [] => false
  | a :: as, b :: bs => a == b && hasPrefixCh as bs

/-- Does `pat` occur as a contiguous run inside `s`? -/
def containsCh (pat : List Char) : List Char → Bool
  | [] => pat.isEmpty
  | c :: cs => hasPrefixCh pat (c :: cs) || containsCh pat cs

/-- Shallow embedding of JavaScript `s.includes(pat)`. -/
def includes (s pat : String) : Bool :=
  containsCh pat.data s.data

/-- Split a character list at every newline character, keeping empty segments,
exactly as JavaScript `split("\n")` does. -/
def splitLinesCh : List Char → List (List Char)
  | [] => [[]]
  | c :: cs =>
    match splitLinesCh cs with
    | [] => [[]]
    | l :: ls => if c = '\n' then [] :: l :: ls else (c :: l) :: ls

/-- Shallow embedding of JavaScript `s.split("\n")`. -/
def splitLines (s : String) : List String :=
  (splitLinesCh s.data).map List.asString

/-- Shallow embedding of JavaScript `s.toLowerCase()`: lower-case every
character. -/
def toLowerCase (s : String) : String :=
  ⟨s.data.map Char.toLower⟩

/-- Shallow embedding of JavaScript `s.trim()`: drop whitespace from both ends. -/
def jsTrim (s : String) : String :=
  ⟨((s.data.dropWhile Char.isWhitespace).reverse.dropWhile Char.isWhitespace).reverse⟩

/-- The `type` field of `AnalysisResult` in CodeAnalyzer.tsx:
`'error' | 'warning' | 'info' | 'suggestion'`. -/
inductive ResultType
  | error
  | warning
  | info
  | suggestion
deriving DecidableEq

/-- The `severity` field of `AnalysisResult` in CodeAnalyzer.tsx:
`'high' | 'medium' | 'low'`. -/
inductive Severity
  | high
  | medium
  | low
deriving DecidableEq

/-- The `AnalysisResult` interface of CodeAnalyzer.tsx. -/
structure AnalysisResult where
  type : ResultType
  message : String
  line : Option Nat := none
  severity : Severity
  fix : Option String := none
deriving DecidableEq

/-- The `type` field of `DebugSuggestion` in DebugHelper.tsx:
`'error' | 'warning' | 'tip'`. -/
inductive DebugType
  | error
  | warning
  | tip
deriving DecidableEq

/-- The `DebugSuggestion` interface of DebugHelper.tsx. -/
structure DebugSuggestion where
  id : String
  type : DebugType
  title : String
  description : String
  solution : String
  codeExample : Option String := none
deriving DecidableEq

/-- The `difficulty` field of `Tutorial` in TutorialSystem.tsx. -/
inductive Difficulty
  | Beginner
  | Intermediate
  | Advanced
deriving DecidableEq

/-- The `TutorialStep` interface of TutorialSystem.tsx. -/
structure TutorialStep where
  id : String
  title : String
  content : String
  code : Option String := none
  explanation : String
  tips : Option (List String) := none
deriving DecidableEq

/-- The `Tutorial` interface of TutorialSystem.tsx. -/
structure Tutorial where
  id : String
  title : String
  description : String
  difficulty : Difficulty
  duration : String
  steps : List TutorialStep
deriving DecidableEq

/-- The `difficulty` field of `Exercise` in ExerciseGenerator.tsx. -/
inductive ExerciseDifficulty
  | Easy
  | Medium
  | Hard
deriving DecidableEq

/-- One display-only test case of an `Exercise` in ExerciseGenerator.tsx. -/
structure TestCase where
  input : String
  expected : String
deriving DecidableEq

/-- The `Exercise` interface of ExerciseGenerator.tsx. -/
structure Exercise where
  id : String
  title : String
  description : String
  difficulty : ExerciseDifficulty
  topic : String
  timeEstimate : String
  points : Nat
  starterCode : String
  solution : String
  testCases : List TestCase
deriving DecidableEq
/-- The fixed catalog of debugging suggestions (`commonIssues` in DebugHelper.tsx),
in its source order: undefined-variable, null-property-access, infinite-loop,
out-of-bounds. -/
def commonIssues : List DebugSuggestion := [
  { id := "1", type := DebugType.error,
    title := "Undefined Variable",
    description := "Variable is being used before declaration or is out of scope",
    solution := "Declare the variable before using it, or check if it\x27s accessible in the current scope.",
    codeExample := some "// \u274C Wrong\nconsole.log(name); // Error: name is not defined\n\n// \u2705 Correct\nlet name = \"John\";\nconsole.log(name);" },
  { id := "2", type := DebugType.error,
    title := "Cannot read property of undefined",
    description := "Trying to access a property of an undefined or null object",
    solution := "Use optional chaining (?.) or check if the object exists before accessing properties.",
    codeExample := some "// \u274C Wrong\nconst user = null;\nconsole.log(user.name); // Error\n\n// \u2705 Correct\nconst user = null;\nconsole.log(user?.name); // undefined (no error)\n// or\nif (user) \x7b\n  console.log(user.name);\n\x7d" },
  { id := "3", type := DebugType.warning,
    title := "Infinite Loop",
    description := "Loop condition never becomes false, causing the program to hang",
    solution := "Ensure the loop variable is properly updated and the condition will eventually be false.",
    codeExample := some "// \u274C Wrong\nlet i = 0;\nwhile (i < 10) \x7b\n  console.log(i); // i never changes!\n\x7d\n\n// \u2705 Correct\nlet i = 0;\nwhile (i < 10) \x7b\n  console.log(i);\n  i++; // Update the counter\n\x7d" },
  { id := "4", type := DebugType.tip,
    title := "Array Index Out of Bounds",
    description := "Accessing array elements with invalid indices",
    solution := "Check array length before accessing elements or use safe methods.",
    codeExample := some "// \u274C Risky\nconst arr = [1, 2, 3];\nconsole.log(arr[10]); // undefined\n\n// \u2705 Safe\nconst arr = [1, 2, 3];\nif (arr.length > 10) \x7b\n  console.log(arr[10]);\n\x7d\n// or use optional chaining\nconsole.log(arr.at(10)); // undefined (safe)" }
]

/-- The fixed tutorial catalog (`tutorials` in TutorialSystem.tsx): two tutorials,
with 3 and 2 steps respectively. -/
def tutorials : List Tutorial := [
  { id := "js-basics", title := "JavaScript Fundamentals",
    description := "Learn the core concepts of JavaScript programming",
    difficulty := Difficulty.Beginner, duration := "30 min",
    steps := [
      { id := "1", title := "Variables and Data Types",
        content := "In JavaScript, you can store data in variables using let, const, or var keywords.",
        code := some "// Different ways to declare variables\nlet name = \"John\";        // String\nconst age = 25;          // Number\nlet isStudent = true;    // Boolean\nlet hobbies = [\"coding\", \"reading\"]; // Array\nlet person = \x7b name: \"Alice\", age: 30 \x7d; // Object",
        explanation := "Variables are containers for storing data. Use \"const\" for values that won\x27t change, \"let\" for values that might change, and avoid \"var\" in modern JavaScript.",
        tips := some [
          "Always use meaningful variable names",
          "Prefer const over let when the value doesn\x27t change",
          "Use camelCase for variable naming"
        ] },
      { id := "2", title := "Functions",
        content := "Functions are reusable blocks of code that perform specific tasks.",
        code := some "// Function declaration\nfunction greet(name) \x7b\n  return \"Hello, \" + name + \"!\";\n\x7d\n\n// Arrow function (ES6+)\nconst greetArrow = (name) => \x7b\n  return \x60Hello, $\x7bname\x7d!\x60;\n\x7d;\n\n// Short arrow function\nconst greetShort = name => \x60Hello, $\x7bname\x7d!\x60;\n\n// Using the functions\nconsole.log(greet(\"Alice\"));\nconsole.log(greetArrow(\"Bob\"));",
        explanation := "Functions help organize code and make it reusable. Arrow functions provide a more concise syntax and have different \"this\" binding behavior.",
        tips := some [
          "Keep functions small and focused on one task",
          "Use descriptive function names",
          "Consider using arrow functions for short operations"
        ] },
      { id := "3", title := "Control Flow",
        content := "Control the flow of your program using conditions and loops.",
        code := some "// If-else statements\nlet score = 85;\nif (score >= 90) \x7b\n  console.log(\"Excellent!\");\n\x7d else if (score >= 70) \x7b\n  console.log(\"Good job!\");\n\x7d else \x7b\n  console.log(\"Keep practicing!\");\n\x7d\n\n// For loop\nfor (let i = 0; i < 5; i++) \x7b\n  console.log(\"Count: \" + i);\n\x7d\n\n// Array iteration\nconst fruits = [\"apple\", \"banana\", \"orange\"];\nfruits.forEach(fruit => \x7b\n  console.log(\"I like \" + fruit);\n\x7d);",
        explanation := "Control flow statements help you make decisions and repeat actions in your code.",
        tips := some [
          "Use forEach, map, filter for array operations",
          "Consider switch statements for multiple conditions",
          "Break complex conditions into smaller, readable parts"
        ] }
    ] },
  { id := "react-intro", title := "React Components",
    description := "Build interactive user interfaces with React",
    difficulty := Difficulty.Intermediate, duration := "45 min",
    steps := [
      { id := "1", title := "Creating Components",
        content := "React components are the building blocks of React applications.",
        code := some "import React from \x27react\x27;\n\n// Functional component\nfunction Welcome(props) \x7b\n  return <h1>Hello, \x7bprops.name\x7d!</h1>;\n\x7d\n\n// Arrow function component\nconst WelcomeArrow = (\x7b name \x7d) => \x7b\n  return <h1>Hello, \x7bname\x7d!</h1>;\n\x7d;\n\n// Using the component\nfunction App() \x7b\n  return (\n    <div>\n      <Welcome name=\"Alice\" />\n      <WelcomeArrow name=\"Bob\" />\n    </div>\n  );\n\x7d",
        explanation := "Components let you split the UI into independent, reusable pieces. Props allow you to pass data from parent to child components.",
        tips := some [
          "Use PascalCase for component names",
          "Keep components small and focused",
          "Use destructuring for props when possible"
        ] },
      { id := "2", title := "State Management",
        content := "State allows components to have dynamic data that can change over time.",
        code := some "import React, \x7b useState \x7d from \x27react\x27;\n\nfunction Counter() \x7b\n  const [count, setCount] = useState(0);\n  const [name, setName] = useState(\x27\x27);\n\n  return (\n    <div>\n      <h2>Count: \x7bcount\x7d</h2>\n      <button onClick=\x7b() => setCount(count + 1)\x7d>\n        Increment\n      </button>\n      <button onClick=\x7b() => setCount(count - 1)\x7d>\n        Decrement\n      </button>\n      \n      <input \n        type=\"text\"\n        value=\x7bname\x7d\n        onChange=\x7b(e) => setName(e.target.value)\x7d\n        placeholder=\"Enter your name\"\n      />\n      <p>Hello, \x7bname\x7d!</p>\n    </div>\n  );\n\x7d",
        explanation := "useState hook allows functional components to have state. Always use the setter function to update state.",
        tips := some [
          "State updates are asynchronous",
          "Don\x27t mutate state directly",
          "Use functional updates for complex state logic"
        ] }
    ] }
]

/-- The fixed exercise catalog (`exercises` in ExerciseGenerator.tsx):
three entries with identifiers "1", "2", "3". -/
def exercises : List Exercise := [
  { id := "1", title := "Array Sum Calculator",
    description := "Write a function that calculates the sum of all numbers in an array",
    difficulty := ExerciseDifficulty.Easy, topic := "Arrays",
    timeEstimate := "5 min", points := 10,
    starterCode := "function sumArray(numbers) \x7b\n  // Your code here\n  \n\x7d\n\n// Test your function\nconsole.log(sumArray([1, 2, 3, 4, 5])); // Should return 15",
    solution := "function sumArray(numbers) \x7b\n  return numbers.reduce((sum, num) => sum + num, 0);\n\x7d",
    testCases := [
      { input := "[1, 2, 3, 4, 5]", expected := "15" },
      { input := "[10, -5, 3]", expected := "8" },
      { input := "[]", expected := "0" }
    ] },
  { id := "2", title := "String Reverser",
    description := "Create a function that reverses a string without using built-in reverse method",
    difficulty := ExerciseDifficulty.Medium, topic := "Strings",
    timeEstimate := "10 min", points := 20,
    starterCode := "function reverseString(str) \x7b\n  // Your code here - don\x27t use .reverse()\n  \n\x7d\n\n// Test your function\nconsole.log(reverseString(\"hello\")); // Should return \"olleh\"",
    solution := "function reverseString(str) \x7b\n  let reversed = \x27\x27;\n  for (let i = str.length - 1; i >= 0; i--) \x7b\n    reversed += str[i];\n  \x7d\n  return reversed;\n\x7d",
    testCases := [
      { input := "\"hello\"", expected := "\"olleh\"" },
      { input := "\"JavaScript\"", expected := "\"tpircSavaJ\"" },
      { input := "\"\"", expected := "\"\"" }
    ] },
  { id := "3", title := "Fibonacci Generator",
    description := "Implement a function that generates the first n numbers in the Fibonacci sequence",
    difficulty := ExerciseDifficulty.Hard, topic := "Algorithms",
    timeEstimate := "15 min", points := 30,
    starterCode := "function fibonacci(n) \x7b\n  // Your code here\n  \n\x7d\n\n// Test your function\nconsole.log(fibonacci(7)); // Should return [0, 1, 1, 2, 3, 5, 8]",
    solution := "function fibonacci(n) \x7b\n  if (n <= 0) return [];\n  if (n === 1) return [0];\n  \n  const sequence = [0, 1];\n  for (let i = 2; i < n; i++) \x7b\n    sequence[i] = sequence[i - 1] + sequence[i - 2];\n  \x7d\n  return sequence;\n\x7d",
    testCases := [
      { input := "7", expected := "[0, 1, 1, 2, 3, 5, 8]" },
      { input := "1", expected := "[0]" },
      { input := "0", expected := "[]" }
    ] }
]
/-- The finding pushed by the first rule of `analyzeCode` (CodeAnalyzer.tsx):
discourage `var`. -/
def varWarning : AnalysisResult :=
  { type := ResultType.warning,
    message := "Use \"let\" or \"const\" instead of \"var\" for better scoping",
    severity := Severity.medium,
    fix := some "Replace \"var\" with \"let\" or \"const\"" }

/-- The finding pushed by the second rule of `analyzeCode`: console.log detected. -/
def consoleLogInfo : AnalysisResult :=
  { type := ResultType.info,
    message := "Console.log detected - remember to remove in production",
    severity := Severity.low,
    fix := some "Use proper logging library or remove debug statements" }

/-- The finding pushed by the third rule of `analyzeCode`: extract functions. -/
def extractFunctionsSuggestion : AnalysisResult :=
  { type := ResultType.suggestion,
    message := "Consider breaking this code into functions for better modularity",
    severity := Severity.medium,
    fix := some "Extract reusable logic into separate functions" }

/-- The finding pushed by the fourth rule of `analyzeCode`: long lines. -/
def longLineWarning : AnalysisResult :=
  { type := ResultType.warning,
    message := "Some lines are too long (>120 characters)",
    severity := Severity.low,
    fix := some "Break long lines for better readability" }

/-- The finding pushed by the fifth rule of `analyzeCode`: prefer functional
array operations. -/
def forEachSuggestion : AnalysisResult :=
  { type := ResultType.suggestion,
    message := "Consider using map/filter/reduce for functional programming",
    severity := Severity.low,
    fix := some "Use functional array methods when appropriate" }

/-- The five findings of `analyzeCode` in the fixed rule-evaluation order. -/
def ruleFindings : List AnalysisResult :=
  [varWarning, consoleLogInfo, extractFunctionsSuggestion, longLineWarning,
   forEachSuggestion]

/-- The pure core of `analyzeCode` in CodeAnalyzer.tsx (the body of the 1500 ms
timer callback): five independent substring/length checks, each pushing one
fixed finding onto the result list, evaluated in source order. -/
def analyzeCode (code language : String) : List AnalysisResult :=
  (if includes code "var " then [varWarning] else []) ++
  (if includes code "console.log" ∧ language = "javascript"
    then [consoleLogInfo] else []) ++
  (if ¬ includes code "function" ∧ ¬ includes code "=>" ∧ code.length > 50
    then [extractFunctionsSuggestion] else []) ++
  (if (splitLines code).any (fun line => decide (line.length > 120))
    then [longLineWarning] else []) ++
  (if includes code "for" ∧ includes code "forEach"
    then [forEachSuggestion] else [])

/-- The automatic trigger of CodeAnalyzer.tsx (its `useEffect` on
`[code, language]`): when the trimmed code is non-empty (JavaScript truthiness
of `code.trim()`) the analysis is invoked and replaces the displayed list;
otherwise nothing is invoked and the displayed list is left as it was. The
returned Boolean records whether `analyzeCode` was invoked. -/
def analyzerEffectStep (analysis : List AnalysisResult) (code language : String) :
    Bool × List AnalysisResult :=
  if jsTrim code = "" then (false, analysis) else (true, analyzeCode code language)

/-- The filter condition evaluated inside `analyzeError` in DebugHelper.tsx.
It depends only on the problem description and the current code, never on the
catalog entry under test (the source callback ignores its `issue` argument). -/
def debugFilterPred (errorDescription code : String) : Bool :=
  let keywords := toLowerCase errorDescription
  includes keywords "undefined" || includes keywords "null" ||
  includes keywords "loop" || includes keywords "property" ||
  includes code "undefined" || includes code "while" || includes code "for"

/-- The pure core of `analyzeError` in DebugHelper.tsx (the body of the 1000 ms
timer callback): filter `commonIssues` with a callback that ignores the entry
being tested, then fall back to the whole catalog when the filtered list is
empty. -/
def analyzeError (errorDescription code : String) : List DebugSuggestion :=
  let relevantSuggestions :=
    commonIssues.filter (fun issue => debugFilterPred errorDescription code)
  if relevantSuggestions.length > 0 then relevantSuggestions else commonIssues

/-- The navigation direction of `handleStepNavigation` in TutorialSystem.tsx. -/
inductive NavDirection
  | next
  | prev
deriving DecidableEq

/-- The local state of the TutorialSystem component, together with the last
code snippet it emitted to the page through `onLoadTutorialCode`. -/
structure TutorialSystemState where
  selectedTutorial : Option Tutorial
  currentStep : Nat
  completedSteps : List String
  loadedCode : Option String
deriving DecidableEq

/-- `handleTutorialSelect` in TutorialSystem.tsx: select a tutorial, reset the
step index to 0 and emit the first step's code when it is present and
non-empty (JavaScript truthiness of `tutorial.steps[0]?.code`). -/
def handleTutorialSelect (s : TutorialSystemState) (tutorial : Tutorial) :
    TutorialSystemState :=
  { s with
    selectedTutorial := some tutorial
    currentStep := 0
    loadedCode :=
      match tutorial.steps[0]? with
      | some st =>
        match st.code with
        | some c => if c = "" then s.loadedCode else some c
        | none => s.loadedCode
      | none => s.loadedCode }

/-- `handleStepNavigation` in TutorialSystem.tsx: clamp the step index
(`Math.min(currentStep + 1, steps.length - 1)` for next,
`Math.max(currentStep - 1, 0)` for prev — the latter is exactly truncated
`Nat` subtraction) and emit the new step's code when present and non-empty.
No-op when no tutorial is selected. -/
def handleStepNavigation (s : TutorialSystemState) (direction : NavDirection) :
    TutorialSystemState :=
  match s.selectedTutorial with
  | none => s
  | some selectedTutorial =>
    let newStep : Nat :=
      match direction with
      | NavDirection.next => min (s.currentStep + 1) (selectedTutorial.steps.length - 1)
      | NavDirection.prev => s.currentStep - 1
    { s with
      currentStep := newStep
      loadedCode :=
        match selectedTutorial.steps[newStep]? with
        | some st =>
          match st.code with
          | some c => if c = "" then s.loadedCode else some c
          | none => s.loadedCode
        | none => s.loadedCode }

/-- The local state of the ExerciseGenerator component, together with the last
starter code it emitted to the page through `onLoadExercise`. -/
structure ExerciseGeneratorState where
  currentExercise : Option Exercise
  completedExercises : List String
  showSolution : Bool
  loadedCode : Option String
deriving DecidableEq

/-- `generateRandomExercise` in ExerciseGenerator.tsx. The source draws
`randomIndex = Math.floor(Math.random() * exercises.length)`, which is always a
valid index; the draw is made explicit here as a `Fin exercises.length`
parameter, so the definition covers every possible outcome of the random
choice. It selects the drawn exercise, hides the solution and emits the
exercise's starter code. -/
def generateRandomExercise (s : ExerciseGeneratorState)
    (randomIndex : Fin exercises.length) : ExerciseGeneratorState :=
  let exercise := exercises.get randomIndex
  { s with
    currentExercise := some exercise
    showSolution := false
    loadedCode := some exercise.starterCode }

/-- `markCompleted` in ExerciseGenerator.tsx: append the current exercise's
identifier to the completed list unless it is already there; no-op when no
exercise is selected. -/
def markCompleted (s : ExerciseGeneratorState) : ExerciseGeneratorState :=
  match s.currentExercise with
  | none => s
  | some currentExercise =>
    if currentExercise.id ∈ s.completedExercises then s
    else { s with completedExercises := s.completedExercises ++ [currentExercise.id] }
set_option maxRecDepth 8000

/-! ### Helper lemmas about the one-finding chunks of `analyzeCode` -/

theorem chunk_sublist_base {α : Type} (c : Prop) [Decidable c] (x : α) :
    List.Sublist (if c then [x] else []) [x] := by
  split
  · exact List.Sublist.refl _
  · exact List.nil_sublist _

theorem chunk_sublist_cons {α : Type} (c : Prop) [Decidable c] (x : α)
    {l₁ l₂ : List α} (h : List.Sublist l₁ l₂) :
    List.Sublist ((if c then [x] else []) ++ l₁) (x :: l₂) := by
  split
  · exact List.Sublist.cons₂ x h
  · exact List.Sublist.cons x h

theorem mem_chunk {α : Type} (c : Prop) [Decidable c] (x y : α) :
    y ∈ (if c then [x] else []) ↔ c ∧ y = x := by
  split <;> rename_i h <;> simp [h]

theorem mem_chunk_append {α : Type} (c : Prop) [Decidable c] (x y : α)
    (l : List α) :
    y ∈ (if c then [x] else []) ++ l ↔ (c ∧ y = x) ∨ y ∈ l := by
  split <;> rename_i h <;> simp [h]

theorem analyzeCode_sublist (code language : String) :
    List.Sublist (analyzeCode code language) ruleFindings := by
  unfold analyzeCode ruleFindings
  simp only [List.append_assoc]
  exact chunk_sublist_cons _ _ (chunk_sublist_cons _ _ (chunk_sublist_cons _ _
    (chunk_sublist_cons _ _ (chunk_sublist_base _ _))))

theorem mem_analyzeCode (code language : String) (y : AnalysisResult) :
    y ∈ analyzeCode code language ↔
      (includes code "var " = true ∧ y = varWarning)
      ∨ ((includes code "console.log" = true ∧ language = "javascript")
          ∧ y = consoleLogInfo)
      ∨ ((¬ includes code "function" = true ∧ ¬ includes code "=>" = true
          ∧ code.length > 50) ∧ y = extractFunctionsSuggestion)
      ∨ ((splitLines code).any (fun line => decide (line.length > 120)) = true
          ∧ y = longLineWarning)
      ∨ ((includes code "for" = true ∧ includes code "forEach" = true)
          ∧ y = forEachSuggestion) := by
  unfold analyzeCode
  simp only [List.append_assoc, mem_chunk_append, mem_chunk]

theorem ruleFindings_nodup : ruleFindings.Nodup := by decide

/-! ### Claim theorems -/

/-- C1: for every problem description and code string, `analyzeError` returns
exactly the catalog entries satisfying the filter condition, in the fixed
catalog order, falling back to the full 4-entry catalog when the filtered set
is empty; the result is non-empty for every input. -/
theorem analyzeError_filter_with_fallback (errorDescription code : String) :
    (analyzeError errorDescription code =
      if commonIssues.filter (fun issue => debugFilterPred errorDescription code) = []
      then commonIssues
      else commonIssues.filter (fun issue => debugFilterPred errorDescription code))
    ∧ analyzeError errorDescription code ≠ [] := by
  unfold analyzeError
  cases h : debugFilterPred errorDescription code
  · exact ⟨rfl, by decide⟩
  · exact ⟨rfl, by decide⟩

/-- C2: `analyzeError` is a constant function of its inputs: the filter
callback never references the entry being tested, so either every catalog
entry is kept or none is, and the empty case falls back to the full catalog;
the output is always the entire fixed 4-entry catalog in catalog order. -/
theorem analyzeError_constant_full_catalog (errorDescription code : String) :
    analyzeError errorDescription code = commonIssues := by
  unfold analyzeError
  cases h : debugFilterPred errorDescription code
  · rfl
  · rfl

/-- C3 counterexample: after analysing `"var x = 1;"` (which produces a
non-empty finding list) and then changing the code to the blank string, the
effect performs no invocation, yet the displayed result set is NOT empty — the
stale findings of the previous run are retained, contradicting the claim that
blank input leaves an empty result set shown. -/
theorem analyzerEffectStep_blank_stale_cex :
    (analyzerEffectStep ((analyzerEffectStep [] "var x = 1;" "javascript").2)
        "" "javascript").1 = false
    ∧ (analyzerEffectStep ((analyzerEffectStep [] "var x = 1;" "javascript").2)
        "" "javascript").2 ≠ [] := by
  decide

/-- C3 (amended): the analysis is re-invoked whenever code or language change
and the code is non-blank after trimming; on blank (empty or whitespace-only)
code no invocation occurs and no findings are emitted — the displayed result
set is left unchanged, hence it is empty only when it was already empty, as in
the initial state. -/
theorem analyzerEffectStep_trigger (analysis : List AnalysisResult)
    (code language : String) :
    (jsTrim code ≠ "" →
      analyzerEffectStep analysis code language = (true, analyzeCode code language))
    ∧ (jsTrim code = "" →
      analyzerEffectStep analysis code language = (false, analysis)) := by
  constructor <;> intro h <;> simp [analyzerEffectStep, h]

/-- C3 witness: a non-blank input triggers the analysis, a whitespace-only
input does not and keeps the (here: initial, empty) result list. -/
theorem analyzerEffectStep_trigger_witness :
    (jsTrim "var x = 1;" ≠ ""
      ∧ analyzerEffectStep [] "var x = 1;" "javascript"
          = (true, analyzeCode "var x = 1;" "javascript"))
    ∧ (jsTrim "   " = ""
      ∧ analyzerEffectStep [] "   " "javascript" = (false, [])) :=
  ⟨⟨by decide, (analyzerEffectStep_trigger [] "var x = 1;" "javascript").1 (by decide)⟩,
   ⟨by decide, (analyzerEffectStep_trigger [] "   " "javascript").2 (by decide)⟩⟩

/-- C4: `analyzeCode` evaluates its five rules independently and appends the
matched findings in the fixed rule order (var-warning, console.log-info,
extract-functions-suggestion, long-line-warning, for/forEach-suggestion): the
output is a sublist of the fixed 5-finding list (hence ordered, without
duplication, of length at most 5), and each finding occurs iff its own rule
condition holds, regardless of the other rules. -/
theorem analyzeCode_fixed_rule_order (code language : String) :
    List.Sublist (analyzeCode code language) ruleFindings
    ∧ (analyzeCode code language).length ≤ 5
    ∧ (varWarning ∈ analyzeCode code language ↔ includes code "var " = true)
    ∧ (consoleLogInfo ∈ analyzeCode code language ↔
        (includes code "console.log" = true ∧ language = "javascript"))
    ∧ (extractFunctionsSuggestion ∈ analyzeCode code language ↔
        (¬ includes code "function" = true ∧ ¬ includes code "=>" = true
          ∧ code.length > 50))
    ∧ (longLineWarning ∈ analyzeCode code language ↔
        (splitLines code).any (fun line => decide (line.length > 120)) = true)
    ∧ (forEachSuggestion ∈ analyzeCode code language ↔
        (includes code "for" = true ∧ includes code "forEach" = true)) := by
  refine ⟨analyzeCode_sublist code language, ?_, ?_, ?_, ?_, ?_, ?_⟩
  · have hl := (analyzeCode_sublist code language).length_le
    have h5 : ruleFindings.length = 5 := rfl
    rw [h5] at hl
    exact hl
  · constructor
    · intro hmem
      rcases (mem_analyzeCode code language varWarning).1 hmem with h|h|h|h|h
      · exact h.1
      · exact absurd h.2 (by decide)
      · exact absurd h.2 (by decide)
      · exact absurd h.2 (by decide)
      · exact absurd h.2 (by decide)
    · intro hc
      exact (mem_analyzeCode code language varWarning).2 (Or.inl ⟨hc, rfl⟩)
  · constructor
    · intro hmem
      rcases (mem_analyzeCode code language consoleLogInfo).1 hmem with h|h|h|h|h
      · exact absurd h.2 (by decide)
      · exact h.1
      · exact absurd h.2 (by decide)
      · exact absurd h.2 (by decide)
      · exact absurd h.2 (by decide)
    · intro hc
      exact (mem_analyzeCode code language consoleLogInfo).2 (Or.inr (Or.inl ⟨hc, rfl⟩))
  · constructor
    · intro hmem
      rcases (mem_analyzeCode code language extractFunctionsSuggestion).1 hmem
        with h|h|h|h|h
      · exact absurd h.2 (by decide)
      · exact absurd h.2 (by decide)
      · exact h.1
      · exact absurd h.2 (by decide)
      · exact absurd h.2 (by decide)
    · intro hc
      exact (mem_analyzeCode code language extractFunctionsSuggestion).2
        (Or.inr (Or.inr (Or.inl ⟨hc, rfl⟩)))
  · constructor
    · intro hmem
      rcases (mem_analyzeCode code language longLineWarning).1 hmem with h|h|h|h|h
      · exact absurd h.2 (by decide)
      · exact absurd h.2 (by decide)
      · exact absurd h.2 (by decide)
      · exact h.1
      · exact absurd h.2 (by decide)
    · intro hc
      exact (mem_analyzeCode code language longLineWarning).2
        (Or.inr (Or.inr (Or.inr (Or.inl ⟨hc, rfl⟩))))
  · constructor
    · intro hmem
      rcases (mem_analyzeCode code language forEachSuggestion).1 hmem with h|h|h|h|h
      · exact absurd h.2 (by decide)
      · exact absurd h.2 (by decide)
      · exact absurd h.2 (by decide)
      · exact absurd h.2 (by decide)
      · exact h.1
    · intro hc
      exact (mem_analyzeCode code language forEachSuggestion).2
        (Or.inr (Or.inr (Or.inr (Or.inr ⟨hc, rfl⟩))))

/-- C5: every code string containing the literal substring `"var "` makes
`analyzeCode` emit the var-warning finding exactly once, for every language
and regardless of other content. -/
theorem analyzeCode_var_warning_exactly_once (code language : String)
    (h : includes code "var " = true) :
    List.count varWarning (analyzeCode code language) = 1 := by
  have nd : (analyzeCode code language).Nodup :=
    List.Nodup.sublist (analyzeCode_sublist code language) ruleFindings_nodup
  have hm : varWarning ∈ analyzeCode code language :=
    (mem_analyzeCode code language varWarning).2 (Or.inl ⟨h, rfl⟩)
  exact List.count_eq_one_of_mem nd hm

/-- C5 witness: concrete instance on `"var x = 1;"`. -/
theorem analyzeCode_var_warning_exactly_once_witness :
    includes "var x = 1;" "var " = true
    ∧ List.count varWarning (analyzeCode "var x = 1;" "javascript") = 1 :=
  ⟨by decide, analyzeCode_var_warning_exactly_once "var x = 1;" "javascript" (by decide)⟩

/-- C6: the concrete input `"var x = 1;\nconsole.log(x);"` with language
`"javascript"` yields exactly the var-warning (medium severity) followed by
the console.log-info (low severity). -/
theorem analyzeCode_concrete_scenario :
    analyzeCode "var x = 1;\nconsole.log(x);" "javascript"
      = [varWarning, consoleLogInfo]
    ∧ varWarning.severity = Severity.medium
    ∧ consoleLogInfo.severity = Severity.low := by
  decide

/-- C7: for a selected tutorial the step index is always clamped to
`[0, steps.length - 1]`: any navigation keeps the index a valid step index,
`next` at the last step leaves the index unchanged, and `prev` at step 0
leaves the index unchanged. -/
theorem handleStepNavigation_clamped (s : TutorialSystemState) (t : Tutorial)
    (d : NavDirection) (hsel : s.selectedTutorial = some t)
    (hstep : s.currentStep < t.steps.length) :
    (handleStepNavigation s d).currentStep < t.steps.length
    ∧ (s.currentStep = t.steps.length - 1 →
        (handleStepNavigation s NavDirection.next).currentStep = s.currentStep)
    ∧ (s.currentStep = 0 →
        (handleStepNavigation s NavDirection.prev).currentStep = s.currentStep) := by
  refine ⟨?_, ?_, ?_⟩
  · cases d <;> simp [handleStepNavigation, hsel] <;> omega
  · intro hlast
    simp [handleStepNavigation, hsel]
    omega
  · intro h0
    simp [handleStepNavigation, hsel]
    omega

/-- C7 witness: on the first catalog tutorial (3 steps), `next` at the last
step (index 2) leaves the index at 2. -/
theorem handleStepNavigation_clamped_witness :
    (handleStepNavigation
      { selectedTutorial := some (tutorials.get ⟨0, by decide⟩), currentStep := 2,
        completedSteps := [], loadedCode := none } NavDirection.next).currentStep = 2 :=
  (handleStepNavigation_clamped _ (tutorials.get ⟨0, by decide⟩) NavDirection.next
    rfl (by decide)).2.1 (by decide)

/-- C8: `markCompleted` is idempotent: a second call with the same current
exercise changes nothing; it is a no-op when the identifier is already in the
completed list and when no exercise is selected; and after a call with an
exercise selected, that exercise's identifier is in the completed list. -/
theorem markCompleted_idempotent (s : ExerciseGeneratorState) :
    markCompleted (markCompleted s) = markCompleted s
    ∧ (s.currentExercise = none → markCompleted s = s)
    ∧ (∀ e : Exercise, s.currentExercise = some e →
        e.id ∈ s.completedExercises → markCompleted s = s)
    ∧ (∀ e : Exercise, s.currentExercise = some e →
        e.id ∈ (markCompleted s).completedExercises) := by
  refine ⟨?_, ?_, ?_, ?_⟩
  · cases hc : s.currentExercise with
    | none => simp [markCompleted, hc]
    | some e =>
      by_cases hm : e.id ∈ s.completedExercises
      · simp [markCompleted, hc, hm]
      · have h1 : markCompleted s
            = { s with completedExercises := s.completedExercises ++ [e.id] } := by
          simp [markCompleted, hc, hm]
        rw [h1]
        simp [markCompleted, hc]
  · intro h
    simp [markCompleted, h]
  · intro e he hm
    simp [markCompleted, he, hm]
  · intro e he
    by_cases hm : e.id ∈ s.completedExercises
    · simp [markCompleted, he, hm]
    · simp [markCompleted, he, hm]

/-- C8 witness: concrete instances of the four guarantees on the first
catalog exercise. -/
theorem markCompleted_idempotent_witness :
    markCompleted (markCompleted
      { currentExercise := some (exercises.get ⟨0, by decide⟩),
        completedExercises := [], showSolution := false, loadedCode := none })
      = markCompleted
      { currentExercise := some (exercises.get ⟨0, by decide⟩),
        completedExercises := [], showSolution := false, loadedCode := none }
    ∧ markCompleted
      { currentExercise := none, completedExercises := [],
        showSolution := false, loadedCode := none }
      = { currentExercise := none, completedExercises := [],
          showSolution := false, loadedCode := none }
    ∧ markCompleted
      { currentExercise := some (exercises.get ⟨0, by decide⟩),
        completedExercises := ["1"], showSolution := false, loadedCode := none }
      = { currentExercise := some (exercises.get ⟨0, by decide⟩),
          completedExercises := ["1"], showSolution := false, loadedCode := none }
    ∧ (exercises.get ⟨0, by decide⟩).id ∈ (markCompleted
      { currentExercise := some (exercises.get ⟨0, by decide⟩),
        completedExercises := [], showSolution := false,
        loadedCode := none }).completedExercises :=
  ⟨(markCompleted_idempotent _).1,
   (markCompleted_idempotent _).2.1 rfl,
   (markCompleted_idempotent _).2.2.1 (exercises.get ⟨0, by decide⟩) rfl (by decide),
   (markCompleted_idempotent _).2.2.2 (exercises.get ⟨0, by decide⟩) rfl⟩

/-- C9: for every outcome of the random index draw, `generateRandomExercise`
selects a catalog exercise whose identifier is `"1"`, `"2"` or `"3"`, resets
the solution-visibility flag to hidden and emits that exercise's starter code. -/
theorem generateRandomExercise_spec (s : ExerciseGeneratorState)
    (randomIndex : Fin exercises.length) :
    (generateRandomExercise s randomIndex).currentExercise
        = some (exercises.get randomIndex)
    ∧ ((exercises.get randomIndex).id = "1" ∨ (exercises.get randomIndex).id = "2"
        ∨ (exercises.get randomIndex).id = "3")
    ∧ (generateRandomExercise s randomIndex).showSolution = false
    ∧ (generateRandomExercise s randomIndex).loadedCode
        = some (exercises.get randomIndex).starterCode := by
  refine ⟨rfl, ?_, rfl, rfl⟩
  rcases randomIndex with ⟨v, hv⟩
  have h3 : exercises.length = 3 := rfl
  rw [h3] at hv
  interval_cases v
  · exact Or.inl rfl
  · exact Or.inr (Or.inl rfl)
  · exact Or.inr (Or.inr rfl)

/-- C10: `analyzeCode` never emits a finding of type `error` or of severity
`high`, even though `AnalysisResult` admits both: every emitted finding has
type warning, info or suggestion and severity medium or low. -/
theorem analyzeCode_type_severity_invariant (code language : String)
    (f : AnalysisResult) (h : f ∈ analyzeCode code language) :
    (f.type = ResultType.warning ∨ f.type = ResultType.info
      ∨ f.type = ResultType.suggestion)
    ∧ f.type ≠ ResultType.error
    ∧ (f.severity = Severity.medium ∨ f.severity = Severity.low)
    ∧ f.severity ≠ Severity.high := by
  have hmem : f ∈ ruleFindings := (analyzeCode_sublist code language).subset h
  have hcases : f = varWarning ∨ f = consoleLogInfo ∨ f = extractFunctionsSuggestion
      ∨ f = longLineWarning ∨ f = forEachSuggestion := by
    simpa [ruleFindings] using hmem
  rcases hcases with rfl|rfl|rfl|rfl|rfl <;> exact ⟨by decide, by decide, by decide, by decide⟩

/-- C10 witness: the var-warning finding emitted on `"var x = 1;"`. -/
theorem analyzeCode_type_severity_invariant_witness :
    varWarning ∈ analyzeCode "var x = 1;" "javascript"
    ∧ ((varWarning.type = ResultType.warning ∨ varWarning.type = ResultType.info
        ∨ varWarning.type = ResultType.suggestion)
      ∧ varWarning.type ≠ ResultType.error
      ∧ (varWarning.severity = Severity.medium ∨ varWarning.severity = Severity.low)
      ∧ varWarning.severity ≠ Severity.high) :=
  ⟨by decide,
   analyzeCode_type_severity_invariant "var x = 1;" "javascript" varWarning (by decide)⟩
